import Mathlib

/-!
# Verification of rogcat's live process-membership filter

Shallow embedding of the process-membership filter of `src/utils.rs`
(`get_pids`, `ProcessFilter::new`, `ProcessFilter::should_skip_process`)
together with theorems settling the specification claims about it.

Modelling choices:
* `std::time::Instant` values are natural numbers of nanoseconds; `Duration`
  values are natural numbers of nanoseconds.  `Instant::duration_since` is
  truncated subtraction (it saturates to zero when the other instant is
  later), and `Instant::checked_sub` returns `none` on underflow.
* The external world reached by `get_pids` (the `adb` lookup, the spawned
  process and its captured output) is a `GetPidsWorld` record passed in
  explicitly; the function is instrumented with flags recording whether the
  executable was located and invoked.
* `should_skip_process` takes the current instant and the world as explicit
  arguments and returns the updated filter, the boolean decision, and the
  number of `get_pids` (Resolver) invocations performed by that call.
-/

namespace Rogcat

/-- Nanoseconds in one second (`Duration::from_secs 1`). -/
def nsPerSec : ℕ := 1000000000

/-- `Duration::from_secs n` as nanoseconds. -/
def fromSecs (n : ℕ) : ℕ := n * nsPerSec

/-- `Instant::checked_sub`: `none` on underflow. -/
def checkedSub (t d : ℕ) : Option ℕ :=
  if d ≤ t then some (t - d) else none

/-- `Instant::duration_since`: elapsed time, zero if the other instant is later. -/
def durationSince (now earlier : ℕ) : ℕ := now - earlier

/-- Strip one leading ASCII plus sign, as Rust's unsigned `from_str` does. -/
def stripPlus : List Char → List Char
  | '+' :: rest => rest
  | cs => cs

/-- Numeric value of a list of ASCII decimal digits. -/
def digitsVal (cs : List Char) : ℕ :=
  cs.foldl (fun a c => a * 10 + (c.toNat - 48)) 0

/-- Rust's `str::parse::<u32>` on a list of characters: an optional leading
plus sign, then one or more ASCII digits, value below `2^32`. -/
def parseU32Chars (cs : List Char) : Option ℕ :=
  let ds := stripPlus cs
  if ds = [] then none
  else if ds.all Char.isDigit then
    if digitsVal ds < 2 ^ 32 then some (digitsVal ds) else none
  else none

/-- Rust's `pid_str.parse::<u32>()`. -/
def parseU32 (s : String) : Option ℕ := parseU32Chars s.data

/-- `str::split_whitespace` on a list of characters: maximal runs of
non-whitespace characters, empty tokens dropped.  `acc` holds the current
token reversed. -/
def splitWsAux : List Char → List Char → List (List Char)
  | [], acc => if acc = [] then [] else [acc.reverse]
  | c :: cs, acc =>
    if c.isWhitespace then
      if acc = [] then splitWsAux cs []
      else acc.reverse :: splitWsAux cs []
    else splitWsAux cs (c :: acc)

/-- `str::split_whitespace` of a string, as lists of characters. -/
def splitWs (s : String) : List (List Char) := splitWsAux s.data []

/-- The parsing loop of `get_pids`: every whitespace-delimited token of
`stdout` that parses as a `u32` is inserted into the result set. -/
def parsePids (stdout : String) : Finset ℕ :=
  ((splitWs stdout).filterMap parseU32Chars).toFinset

/-- The external environment observed by one `get_pids` call: whether the
`adb` executable is found on the search path, whether spawning the command
and capturing its output succeeds, the command's exit status, and the
captured standard output (after lossy UTF-8 decoding). -/
structure GetPidsWorld where
  adbFound : Bool
  spawnOk : Bool
  exitOk : Bool
  stdout : String
  deriving DecidableEq

deriving instance DecidableEq for Except

/-- Instrumented outcome of `get_pids`: the returned `Result`, plus whether
the executable lookup was attempted and whether the command was run. -/
structure GetPidsResult where
  result : Except Unit (Finset ℕ)
  located : Bool
  invoked : Bool
  deriving DecidableEq

/-- `get_pids` from `src/utils.rs`, instrumented.  Empty package list
short-circuits to an empty set; a failed `adb` lookup or a failed spawn is
an error; otherwise the captured stdout is parsed.  The exit status of the
command is never consulted. -/
def getPidsTr (packages : List String) (w : GetPidsWorld) : GetPidsResult :=
  if packages.isEmpty then ⟨Except.ok ∅, false, false⟩
  else if w.adbFound = false then ⟨Except.error (), true, false⟩
  else if w.spawnOk = false then ⟨Except.error (), true, true⟩
  else ⟨Except.ok (parsePids w.stdout), true, true⟩

/-- The `Result` returned by `get_pids`. -/
def get_pids (packages : List String) (w : GetPidsWorld) :
    Except Unit (Finset ℕ) :=
  (getPidsTr packages w).result

/-- `ProcessFilter` state: watched packages, cached PID set, last refresh
instant. -/
structure ProcessFilter where
  packages : List String
  valid_pids : Finset ℕ
  last_update : ℕ
  deriving DecidableEq

namespace ProcessFilter

/-- `ProcessFilter::TTL`: two seconds. -/
def TTL : ℕ := fromSecs 2

/-- `ProcessFilter::new` at construction instant `now`: the cache starts
empty and `last_update` is pre-dated by `TTL + 1s`, falling back to `now`
itself if that subtraction underflows. -/
def new (packages : List String) (now : ℕ) : ProcessFilter :=
  let last_update :=
    match checkedSub now (TTL + fromSecs 1) with
    | some t => t
    | none => now
  ProcessFilter.mk packages ∅ last_update

/-- `ProcessFilter::should_skip_process` at instant `now` in world `w`.
Returns the updated filter, the decision, and the number of `get_pids`
invocations made by the call. -/
def should_skip_process (f : ProcessFilter) (pid_str : String) (now : ℕ)
    (w : GetPidsWorld) : ProcessFilter × Bool × ℕ :=
  if f.packages.isEmpty || pid_str.data.isEmpty then (f, false, 0)
  else
    match parseU32 pid_str with
    | none => (f, false, 0)
    | some pid =>
      if TTL < durationSince now f.last_update then
        let f' :=
          match get_pids f.packages w with
          | Except.ok pids => ProcessFilter.mk f.packages pids now
          | Except.error _ => ProcessFilter.mk f.packages f.valid_pids now
        (f', !decide (pid ∈ f'.valid_pids), 1)
      else (f, !decide (pid ∈ f.valid_pids), 0)

end ProcessFilter

end Rogcat

namespace Rogcat

/-- A non-empty list is not `isEmpty`. -/
lemma ne_nil_isEmpty_false {α : Type} {l : List α} (h : l ≠ []) :
    l.isEmpty = false := by
  cases l with
  | nil => exact absurd rfl h
  | cons a l => rfl

/-- A string that parses as a `u32` is not empty. -/
lemma parseU32_some_data_ne {s : String} {p : ℕ} (h : parseU32 s = some p) :
    s.data.isEmpty = false := by
  cases hd : s.data with
  | nil =>
    exfalso
    simp only [parseU32, hd, parseU32Chars, stripPlus] at h
    simp at h
  | cons c cs => rfl

/-- Shape of `should_skip_process` on the active path (non-empty package
list, parseable PID): a single staleness test gating one `get_pids` call,
then the membership decision against the possibly refreshed set. -/
lemma should_skip_process_active (f : ProcessFilter) (pid_str : String)
    (now : ℕ) (w : GetPidsWorld) (p : ℕ)
    (hne : f.packages ≠ []) (hp : parseU32 pid_str = some p) :
    f.should_skip_process pid_str now w =
      if ProcessFilter.TTL < durationSince now f.last_update then
        match get_pids f.packages w with
        | Except.ok pids =>
            (ProcessFilter.mk f.packages pids now, !decide (p ∈ pids), 1)
        | Except.error _ =>
            (ProcessFilter.mk f.packages f.valid_pids now,
              !decide (p ∈ f.valid_pids), 1)
      else (f, !decide (p ∈ f.valid_pids), 0) := by
  unfold ProcessFilter.should_skip_process
  rw [ne_nil_isEmpty_false hne, parseU32_some_data_ne hp, hp]
  simp only [Bool.or_self, Bool.false_eq_true, if_false]
  by_cases hs : ProcessFilter.TTL < durationSince now f.last_update
  · rw [if_pos hs, if_pos hs]
    cases hres : get_pids f.packages w with
    | ok pids => simp [hres]
    | error e => simp [hres]
  · rw [if_neg hs, if_neg hs]

/-- Shape of `should_skip_process` on the fast-exit path: empty package
list, empty PID string, or unparseable PID string. -/
lemma should_skip_process_inactive (f : ProcessFilter) (pid_str : String)
    (t : ℕ) (w : GetPidsWorld)
    (h : f.packages = [] ∨ pid_str = "" ∨ parseU32 pid_str = none) :
    f.should_skip_process pid_str t w = (f, false, 0) := by
  unfold ProcessFilter.should_skip_process
  rcases h with h | h | h
  · rw [h]
    rfl
  · rw [h]
    have hdata : ("" : String).data.isEmpty = true := rfl
    rw [hdata, Bool.or_true, if_pos rfl]
  · by_cases hg : (f.packages.isEmpty || pid_str.data.isEmpty) = true
    · rw [if_pos hg]
    · rw [if_neg hg, h]

/-- C4: with an empty package list, or an empty or unparseable PID string,
`should_skip_process` returns `false` immediately, leaves the filter
unchanged, and performs no Resolver invocation. -/
theorem claim4_fast_exit (f : ProcessFilter) (pid_str : String) (t : ℕ)
    (w : GetPidsWorld)
    (h : f.packages = [] ∨ pid_str = "" ∨ parseU32 pid_str = none) :
    f.should_skip_process pid_str t w = (f, false, 0) :=
  should_skip_process_inactive f pid_str t w h

/-- C4 witness: the fast exit at concrete inputs, one per disjunct
(empty package list, empty PID string, non-numeric PID string, and a value
overflowing `u32`). -/
theorem claim4_fast_exit_witness :
    (ProcessFilter.mk [] {5} 0).should_skip_process "5" 9000000000
        (GetPidsWorld.mk true true true "7") = (ProcessFilter.mk [] {5} 0, false, 0) ∧
    (ProcessFilter.mk ["a"] {5} 0).should_skip_process "" 9000000000
        (GetPidsWorld.mk true true true "7") = (ProcessFilter.mk ["a"] {5} 0, false, 0) ∧
    (ProcessFilter.mk ["a"] {5} 0).should_skip_process "abc" 9000000000
        (GetPidsWorld.mk true true true "7") = (ProcessFilter.mk ["a"] {5} 0, false, 0) ∧
    (ProcessFilter.mk ["a"] {5} 0).should_skip_process "4294967296" 9000000000
        (GetPidsWorld.mk true true true "7") = (ProcessFilter.mk ["a"] {5} 0, false, 0) :=
  ⟨claim4_fast_exit _ _ _ _ (Or.inl rfl),
    claim4_fast_exit _ _ _ _ (Or.inr (Or.inl rfl)),
    claim4_fast_exit _ _ _ _ (Or.inr (Or.inr (by decide))),
    claim4_fast_exit _ _ _ _ (Or.inr (Or.inr (by decide)))⟩

/-- C5: with a non-empty package list and a PID string parsing to `p`, the
decision is `true` exactly when `p` is absent from the `valid_pids` set in
effect after any refresh performed by the same call. -/
theorem claim5_skip_iff_not_member (f : ProcessFilter) (pid_str : String)
    (p t : ℕ) (w : GetPidsWorld)
    (hne : f.packages ≠ []) (hp : parseU32 pid_str = some p) :
    ((f.should_skip_process pid_str t w).2.1 = true ↔
      p ∉ (f.should_skip_process pid_str t w).1.valid_pids) := by
  rw [should_skip_process_active f pid_str t w p hne hp]
  by_cases hs : ProcessFilter.TTL < durationSince t f.last_update
  · rw [if_pos hs]
    cases hres : get_pids f.packages w with
    | ok pids => simp
    | error e => simp
  · rw [if_neg hs]
    simp

/-- C5 witness: with cached set `{100, 200, 300}` and a fresh cache,
input "200" is kept and "999" is skipped. -/
theorem claim5_skip_iff_not_member_witness :
    (((ProcessFilter.mk ["a"] {100, 200, 300} 0).should_skip_process "200" 0
        (GetPidsWorld.mk true true true "")).2.1 = true ↔
      200 ∉ ((ProcessFilter.mk ["a"] {100, 200, 300} 0).should_skip_process "200" 0
        (GetPidsWorld.mk true true true "")).1.valid_pids) ∧
    ((ProcessFilter.mk ["a"] {100, 200, 300} 0).should_skip_process "200" 0
        (GetPidsWorld.mk true true true "")).2.1 = false ∧
    ((ProcessFilter.mk ["a"] {100, 200, 300} 0).should_skip_process "999" 0
        (GetPidsWorld.mk true true true "")).2.1 = true :=
  ⟨claim5_skip_iff_not_member _ _ 200 _ _ (by decide) (by decide),
    by decide, by decide⟩

/-- C7: with an empty package list, `get_pids` returns an empty set without
attempting to locate or invoke the external executable. -/
theorem claim7_empty_packages_shortcircuit (w : GetPidsWorld) :
    get_pids [] w = Except.ok ∅ ∧
    (getPidsTr [] w).located = false ∧ (getPidsTr [] w).invoked = false :=
  ⟨rfl, rfl, rfl⟩

/-- C7 witness: the short circuit at a concrete world. -/
theorem claim7_empty_packages_shortcircuit_witness :
    get_pids [] (GetPidsWorld.mk true true true "42") = Except.ok ∅ ∧
    (getPidsTr [] (GetPidsWorld.mk true true true "42")).located = false ∧
    (getPidsTr [] (GetPidsWorld.mk true true true "42")).invoked = false :=
  claim7_empty_packages_shortcircuit _

/-- When the executable is found and the command's output is captured,
`get_pids` returns the parsed stdout, whatever the exit status. -/
lemma get_pids_success (pkgs : List String) (w : GetPidsWorld)
    (hne : pkgs ≠ []) (hadb : w.adbFound = true) (hspawn : w.spawnOk = true) :
    get_pids pkgs w = Except.ok (parsePids w.stdout) := by
  unfold get_pids getPidsTr
  rw [ne_nil_isEmpty_false hne, hadb, hspawn]
  simp

/-- The parsing loop on empty captured output yields the empty set. -/
lemma parsePids_empty : parsePids "" = ∅ := by decide

/-- C6: on a successful invocation, `get_pids` returns exactly the set of
whitespace-delimited stdout tokens that parse as `u32`, dropping malformed
tokens. -/
theorem claim6_whitespace_tokens (pkgs : List String) (w : GetPidsWorld)
    (hne : pkgs ≠ []) (hadb : w.adbFound = true) (hspawn : w.spawnOk = true) :
    get_pids pkgs w = Except.ok (parsePids w.stdout) ∧
    ∀ p : ℕ, p ∈ parsePids w.stdout ↔
      ∃ tok ∈ splitWs w.stdout, parseU32Chars tok = some p := by
  refine ⟨get_pids_success pkgs w hne hadb hspawn, fun p => ?_⟩
  unfold parsePids
  rw [List.mem_toFinset, List.mem_filterMap]

/-- C6 witness: output "42 91 notanumber 7" produces the set {42, 91, 7}. -/
theorem claim6_whitespace_tokens_witness :
    get_pids ["com.example.app"]
        (GetPidsWorld.mk true true true "42 91 notanumber 7") =
      Except.ok (parsePids "42 91 notanumber 7") ∧
    parsePids "42 91 notanumber 7" = ({42, 91, 7} : Finset ℕ) :=
  ⟨(claim6_whitespace_tokens _ _ (List.cons_ne_nil _ _) rfl rfl).1, by decide⟩

/-- C3: for a filter whose cache was last refreshed at instant `t`, a call
at instant `tq` performs no Resolver invocation when the elapsed time is at
most `TTL`, and exactly one when it exceeds `TTL`. -/
theorem claim3_ttl_gates_refresh (f : ProcessFilter) (pid_str : String)
    (p t tq : ℕ) (w : GetPidsWorld)
    (hne : f.packages ≠ []) (hp : parseU32 pid_str = some p)
    (hupd : f.last_update = t) :
    (durationSince tq t ≤ ProcessFilter.TTL →
      (f.should_skip_process pid_str tq w).2.2 = 0) ∧
    (ProcessFilter.TTL < durationSince tq t →
      (f.should_skip_process pid_str tq w).2.2 = 1) := by
  rw [should_skip_process_active f pid_str tq w p hne hp, hupd]
  constructor
  · intro hle
    rw [if_neg (not_lt.mpr hle)]
  · intro hgt
    rw [if_pos hgt]
    cases hres : get_pids f.packages w with
    | ok pids => simp
    | error e => simp

/-- C3 witness: with `last_update = 10` ns, a call at 11 ns performs no
refresh and a call at 2000000011 ns (past the 2 s TTL) performs one. -/
theorem claim3_ttl_gates_refresh_witness :
    ((ProcessFilter.mk ["a"] ∅ 10).should_skip_process "5" 11
        (GetPidsWorld.mk true true true "")).2.2 = 0 ∧
    ((ProcessFilter.mk ["a"] ∅ 10).should_skip_process "5" 2000000011
        (GetPidsWorld.mk true true true "")).2.2 = 1 :=
  ⟨(claim3_ttl_gates_refresh (ProcessFilter.mk ["a"] ∅ 10) "5" 5 10 11
      (GetPidsWorld.mk true true true "") (List.cons_ne_nil _ _) (by decide)
      rfl).1 (by decide),
    (claim3_ttl_gates_refresh (ProcessFilter.mk ["a"] ∅ 10) "5" 5 10 2000000011
      (GetPidsWorld.mk true true true "") (List.cons_ne_nil _ _) (by decide)
      rfl).2 (by decide)⟩

/-- C2: when the construction-time `checked_sub` succeeds, a freshly
constructed filter is Stale (its own construction instant already exceeds
the TTL relative to `last_update`), so the first call with a non-empty
package list and parseable PID performs exactly one `get_pids` invocation,
and on Resolver success decides against the fetched set rather than the
empty initial cache. -/
theorem claim2_first_call_refreshes (pkgs : List String) (pid_str : String)
    (p tc t : ℕ) (w : GetPidsWorld)
    (hne : pkgs ≠ []) (hp : parseU32 pid_str = some p)
    (hsub : ProcessFilter.TTL + fromSecs 1 ≤ tc) (hmono : tc ≤ t) :
    ProcessFilter.TTL <
      durationSince tc (ProcessFilter.new pkgs tc).last_update ∧
    ((ProcessFilter.new pkgs tc).should_skip_process pid_str t w).2.2 = 1 ∧
    ∀ S, get_pids pkgs w = Except.ok S →
      ((ProcessFilter.new pkgs tc).should_skip_process pid_str t w).2.1 =
        !decide (p ∈ S) := by
  have hlu : (ProcessFilter.new pkgs tc).last_update =
      tc - (ProcessFilter.TTL + fromSecs 1) := by
    unfold ProcessFilter.new checkedSub
    rw [if_pos hsub]
  have hpk : (ProcessFilter.new pkgs tc).packages = pkgs := rfl
  have hstale : ProcessFilter.TTL <
      durationSince t (tc - (ProcessFilter.TTL + fromSecs 1)) := by
    unfold durationSince ProcessFilter.TTL fromSecs nsPerSec at *
    omega
  refine ⟨?_, ?_, ?_⟩
  · rw [hlu]
    unfold durationSince ProcessFilter.TTL fromSecs nsPerSec at *
    omega
  · rw [should_skip_process_active (ProcessFilter.new pkgs tc) pid_str t w p
        hne hp, hlu, if_pos hstale, hpk]
    cases hres : get_pids pkgs w with
    | ok pids => simp
    | error e => simp
  · intro S hS
    rw [should_skip_process_active (ProcessFilter.new pkgs tc) pid_str t w p
        hne hp, hlu, if_pos hstale, hpk, hS]

/-- C2 witness: constructed at 3 s, the filter is already Stale and the
first call refreshes once, deciding against the fetched set {7}. -/
theorem claim2_first_call_refreshes_witness :
    ProcessFilter.TTL <
      durationSince 3000000000 (ProcessFilter.new ["a"] 3000000000).last_update ∧
    ((ProcessFilter.new ["a"] 3000000000).should_skip_process "7" 3000000000
        (GetPidsWorld.mk true true true "7")).2.2 = 1 ∧
    ((ProcessFilter.new ["a"] 3000000000).should_skip_process "7" 3000000000
        (GetPidsWorld.mk true true true "7")).2.1 =
      !decide (7 ∈ parsePids "7") :=
  ⟨(claim2_first_call_refreshes ["a"] "7" 7 3000000000 3000000000
      (GetPidsWorld.mk true true true "7") (List.cons_ne_nil _ _) (by decide)
      (by decide) le_rfl).1,
    (claim2_first_call_refreshes ["a"] "7" 7 3000000000 3000000000
      (GetPidsWorld.mk true true true "7") (List.cons_ne_nil _ _) (by decide)
      (by decide) le_rfl).2.1,
    (claim2_first_call_refreshes ["a"] "7" 7 3000000000 3000000000
      (GetPidsWorld.mk true true true "7") (List.cons_ne_nil _ _) (by decide)
      (by decide) le_rfl).2.2 (parsePids "7") (by decide)⟩

/-- C1 counterexample: a stale-cache call whose Resolver fails does change
`last_update` (the code sets `self.last_update = now` outside the
`if let Ok` guard), contradicting the claim that both `valid_pids` and
`last_update` are left unchanged. -/
theorem claim1_counterexample :
    ProcessFilter.TTL <
      durationSince 3000000000 (ProcessFilter.mk ["a"] {5} 0).last_update ∧
    get_pids (ProcessFilter.mk ["a"] {5} 0).packages
        (GetPidsWorld.mk false false false "") = Except.error () ∧
    ((ProcessFilter.mk ["a"] {5} 0).should_skip_process "5" 3000000000
        (GetPidsWorld.mk false false false "")).1.last_update ≠
      (ProcessFilter.mk ["a"] {5} 0).last_update := by
  decide

/-- C1 amended: on a stale-cache call whose Resolver fails, `valid_pids` is
unchanged and the decision is computed against the previously cached set,
but `last_update` is reset to the current instant. -/
theorem claim1_failure_keeps_pids (f : ProcessFilter) (pid_str : String)
    (p now : ℕ) (w : GetPidsWorld)
    (hne : f.packages ≠ []) (hp : parseU32 pid_str = some p)
    (hstale : ProcessFilter.TTL < durationSince now f.last_update)
    (hfail : get_pids f.packages w = Except.error ()) :
    (f.should_skip_process pid_str now w).1.valid_pids = f.valid_pids ∧
    (f.should_skip_process pid_str now w).2.1 = !decide (p ∈ f.valid_pids) ∧
    (f.should_skip_process pid_str now w).1.last_update = now := by
  rw [should_skip_process_active f pid_str now w p hne hp, if_pos hstale,
    hfail]
  exact ⟨rfl, rfl, rfl⟩

/-- C1 amended witness: stale cache `{5}` at 3 s with a failing Resolver
keeps `{5}`, decides "5" against it, and moves `last_update` to 3 s. -/
theorem claim1_failure_keeps_pids_witness :
    ((ProcessFilter.mk ["a"] {5} 0).should_skip_process "5" 3000000000
        (GetPidsWorld.mk false false false "")).1.valid_pids =
      (ProcessFilter.mk ["a"] {5} 0).valid_pids ∧
    ((ProcessFilter.mk ["a"] {5} 0).should_skip_process "5" 3000000000
        (GetPidsWorld.mk false false false "")).2.1 =
      !decide (5 ∈ (ProcessFilter.mk ["a"] {5} 0).valid_pids) ∧
    ((ProcessFilter.mk ["a"] {5} 0).should_skip_process "5" 3000000000
        (GetPidsWorld.mk false false false "")).1.last_update = 3000000000 :=
  claim1_failure_keeps_pids (ProcessFilter.mk ["a"] {5} 0) "5" 5 3000000000
    (GetPidsWorld.mk false false false "") (List.cons_ne_nil _ _) (by decide)
    (by decide) (by decide)

/-- C8: for any input and any Resolver failure, `should_skip_process` still
returns a boolean decision — either the fast-exit `false` or the membership
test against the previously cached set — and the cached `valid_pids` is
left unchanged. -/
theorem claim8_no_error_propagation (f : ProcessFilter) (pid_str : String)
    (t : ℕ) (w : GetPidsWorld)
    (hfail : get_pids f.packages w = Except.error ()) :
    (f.should_skip_process pid_str t w).1.valid_pids = f.valid_pids ∧
    ((f.should_skip_process pid_str t w).2.1 = false ∨
      ∃ p, parseU32 pid_str = some p ∧
        (f.should_skip_process pid_str t w).2.1 =
          !decide (p ∈ f.valid_pids)) := by
  have hne : f.packages ≠ [] := by
    intro h
    rw [h] at hfail
    simp [get_pids, getPidsTr] at hfail
  cases hps : parseU32 pid_str with
  | none =>
    rw [should_skip_process_inactive f pid_str t w (Or.inr (Or.inr hps))]
    exact ⟨rfl, Or.inl rfl⟩
  | some p =>
    rw [should_skip_process_active f pid_str t w p hne hps]
    by_cases hs : ProcessFilter.TTL < durationSince t f.last_update
    · rw [if_pos hs, hfail]
      exact ⟨rfl, Or.inr ⟨p, rfl, rfl⟩⟩
    · rw [if_neg hs]
      exact ⟨rfl, Or.inr ⟨p, rfl, rfl⟩⟩

/-- C8 witness: a stale call with an unlocatable executable keeps the
cached set `{5}` and answers from it. -/
theorem claim8_no_error_propagation_witness :
    ((ProcessFilter.mk ["b"] {5} 0).should_skip_process "9" 3000000000
        (GetPidsWorld.mk false false false "")).1.valid_pids =
      (ProcessFilter.mk ["b"] {5} 0).valid_pids ∧
    (((ProcessFilter.mk ["b"] {5} 0).should_skip_process "9" 3000000000
        (GetPidsWorld.mk false false false "")).2.1 = false ∨
      ∃ p, parseU32 "9" = some p ∧
        ((ProcessFilter.mk ["b"] {5} 0).should_skip_process "9" 3000000000
          (GetPidsWorld.mk false false false "")).2.1 =
          !decide (p ∈ (ProcessFilter.mk ["b"] {5} 0).valid_pids)) :=
  claim8_no_error_propagation (ProcessFilter.mk ["b"] {5} 0) "9" 3000000000
    (GetPidsWorld.mk false false false "") (by decide)

/-- C9: `get_pids` never consults the exit status; a located, spawned
command with empty stdout yields `Ok ∅`; a stale-cache refresh against that
result replaces `valid_pids` with the empty set and skips the current PID;
and any fresh-cache call with an empty cached set skips every parseable
PID. -/
theorem claim9_exit_status_ignored (pkgs : List String) (e1 e2 : Bool)
    (out : String) (f : ProcessFilter) (pid_str : String) (p t : ℕ)
    (w : GetPidsWorld)
    (hne : f.packages ≠ []) (hp : parseU32 pid_str = some p)
    (hadb : w.adbFound = true) (hspawn : w.spawnOk = true) :
    get_pids pkgs (GetPidsWorld.mk true true e1 out) =
      get_pids pkgs (GetPidsWorld.mk true true e2 out) ∧
    (w.stdout = "" → get_pids f.packages w = Except.ok ∅) ∧
    (w.stdout = "" → ProcessFilter.TTL < durationSince t f.last_update →
      (f.should_skip_process pid_str t w).1.valid_pids = ∅ ∧
      (f.should_skip_process pid_str t w).2.1 = true) ∧
    (f.valid_pids = ∅ → durationSince t f.last_update ≤ ProcessFilter.TTL →
      (f.should_skip_process pid_str t w).2.1 = true) := by
  have hok : get_pids f.packages w = Except.ok (parsePids w.stdout) :=
    get_pids_success f.packages w hne hadb hspawn
  refine ⟨rfl, ?_, ?_, ?_⟩
  · intro hout
    rw [hok, hout, parsePids_empty]
  · intro hout hs
    rw [hout, parsePids_empty] at hok
    rw [should_skip_process_active f pid_str t w p hne hp, if_pos hs, hok]
    exact ⟨rfl, by simp⟩
  · intro hvp hle
    rw [should_skip_process_active f pid_str t w p hne hp,
      if_neg (not_lt.mpr hle), hvp]
    simp

/-- C9 witness: exit status is irrelevant to `get_pids`; a successful spawn
with failing exit status and empty stdout gives `Ok ∅`; refreshing against
it empties the cache and skips "5"; and an empty fresh cache skips "5". -/
theorem claim9_exit_status_ignored_witness :
    get_pids ["a"] (GetPidsWorld.mk true true true "x") =
      get_pids ["a"] (GetPidsWorld.mk true true false "x") ∧
    get_pids ["a"] (GetPidsWorld.mk true true false "") = Except.ok ∅ ∧
    (((ProcessFilter.mk ["a"] {5} 0).should_skip_process "5" 3000000000
        (GetPidsWorld.mk true true false "")).1.valid_pids = ∅ ∧
      ((ProcessFilter.mk ["a"] {5} 0).should_skip_process "5" 3000000000
        (GetPidsWorld.mk true true false "")).2.1 = true) ∧
    ((ProcessFilter.mk ["a"] ∅ 0).should_skip_process "5" 1000000000
        (GetPidsWorld.mk true true false "")).2.1 = true := by
  refine ⟨?_, ?_, ?_, ?_⟩
  · exact (claim9_exit_status_ignored ["a"] true false "x"
      (ProcessFilter.mk ["a"] {5} 0) "5" 5 3000000000
      (GetPidsWorld.mk true true false "") (List.cons_ne_nil _ _) (by decide)
      rfl rfl).1
  · exact (claim9_exit_status_ignored ["a"] true false "x"
      (ProcessFilter.mk ["a"] {5} 0) "5" 5 3000000000
      (GetPidsWorld.mk true true false "") (List.cons_ne_nil _ _) (by decide)
      rfl rfl).2.1 rfl
  · exact (claim9_exit_status_ignored ["a"] true false "x"
      (ProcessFilter.mk ["a"] {5} 0) "5" 5 3000000000
      (GetPidsWorld.mk true true false "") (List.cons_ne_nil _ _) (by decide)
      rfl rfl).2.2.1 rfl (by decide)
  · exact (claim9_exit_status_ignored ["a"] true false "x"
      (ProcessFilter.mk ["a"] ∅ 0) "5" 5 1000000000
      (GetPidsWorld.mk true true false "") (List.cons_ne_nil _ _) (by decide)
      rfl rfl).2.2.2 rfl (by decide)

/-- C10: when the construction-time `checked_sub` underflows, `last_update`
falls back to the construction instant, and every call within the following
TTL window performs no refresh and skips every parseable PID (the decision
is computed against the empty initial cache). -/
theorem claim10_underflow_empty_window (pkgs : List String)
    (pid_str : String) (p tc t : ℕ) (w : GetPidsWorld)
    (hne : pkgs ≠ []) (hp : parseU32 pid_str = some p)
    (hund : tc < ProcessFilter.TTL + fromSecs 1)
    (hwin : durationSince t tc ≤ ProcessFilter.TTL) :
    (ProcessFilter.new pkgs tc).last_update = tc ∧
    (ProcessFilter.new pkgs tc).should_skip_process pid_str t w =
      (ProcessFilter.new pkgs tc, true, 0) := by
  have hlu : (ProcessFilter.new pkgs tc).last_update = tc := by
    unfold ProcessFilter.new checkedSub
    rw [if_neg (not_le.mpr hund)]
  refine ⟨hlu, ?_⟩
  rw [should_skip_process_active (ProcessFilter.new pkgs tc) pid_str t w p
    hne hp, hlu, if_neg (not_lt.mpr hwin)]
  simp [ProcessFilter.new]

/-- C10 witness: constructed at instant 0 (underflow), a call at the TTL
boundary performs no refresh and skips PID 5. -/
theorem claim10_underflow_empty_window_witness :
    (ProcessFilter.new ["a"] 0).last_update = 0 ∧
    (ProcessFilter.new ["a"] 0).should_skip_process "5" 2000000000
        (GetPidsWorld.mk true true true "5") =
      (ProcessFilter.new ["a"] 0, true, 0) :=
  claim10_underflow_empty_window ["a"] "5" 5 0 2000000000
    (GetPidsWorld.mk true true true "5") (List.cons_ne_nil _ _) (by decide)
    (by decide) (by decide)

end Rogcat
